import Mathlib

/-!
Shallow embedding of the mock-interview web application
(`app.py`, `crew_agents.py`, `crewai.py`).

Modelling conventions:
* Python strings are Lean `String`s; `len` of a string is `String.length`
  (number of code points, as in Python 3).
* Python integers are `Int`/`Nat`; Python float ("true") division is embedded
  as exact division in `ℚ`, and `int(x)` as truncation toward zero.
* The external generative-model call (`genai.GenerativeModel(...).generate_content`
  composed with `strip` and JSON extraction) is an external effect and is
  passed in as a function parameter `attempt : String → Option _`:
  `none` models any network/API failure, parse failure, or non-qualifying
  shape; `some v` models a successful call whose response text yielded the
  parsed value `v`.
* `json.loads` is external library code and is likewise a parameter
  `parse : String → Option α`; `none` models a raised `JSONDecodeError`.
* Fallible Python code (uncaught exceptions such as `IndexError`) is embedded
  with `Option`: a handler returning `none` models an unhandled server error.
-/

/-- A question object `{"question": ...}` as produced by the generator. -/
structure Question where
  question : String
deriving DecidableEq, Repr

/-- An answer record `{"question": ..., "answer": ...}` stored in the session. -/
structure AnswerRecord where
  question : String
  answer : String
deriving DecidableEq, Repr

/-- The `topic_scores` mapping of a report (fixed topic set). -/
structure TopicScores where
  technical_knowledge : Int
  problem_solving : Int
  communication : Int
  code_quality : Int
  system_design : Int
deriving DecidableEq, Repr

/-- A report object as produced by the heuristic fallback evaluators. -/
structure Report where
  overall_score : Int
  strengths : List String
  weaknesses : List String
  topic_scores : TopicScores
deriving DecidableEq, Repr

/-! ### Python string primitives -/

/-- The whitespace characters removed by Python `str.strip()` (ASCII subset). -/
def pyIsSpace (c : Char) : Bool :=
  c = ' ' || c = '\t' || c = '\n' || c = '\x0d' || c = '\x0b' || c = '\x0c'

/-- Python `s.strip()`: drop whitespace from both ends. -/
def pyStrip (s : String) : String :=
  String.mk (((s.toList.dropWhile pyIsSpace).reverse.dropWhile pyIsSpace).reverse)

/-- Python `s.find(c)` for a single character: index of first occurrence, `-1` if absent. -/
def pyFind (l : List Char) (c : Char) : Int :=
  match l.findIdx? (fun x => x = c) with
  | some i => (i : Int)
  | none => -1

/-- Python `s.rfind(c)` for a single character: index of last occurrence, `-1` if absent. -/
def pyRfind (l : List Char) (c : Char) : Int :=
  match l.reverse.findIdx? (fun x => x = c) with
  | some i => (l.length : Int) - 1 - (i : Int)
  | none => -1

/-- Python nonnegative slice `l[a:b]` (`a, b ≥ 0`). -/
def pySlice (l : List Char) (a b : Int) : List Char :=
  (l.drop a.toNat).take (b - a).toNat

/-- Python `int(q)` on a float value: truncation toward zero. -/
def pyInt (q : ℚ) : Int :=
  if 0 ≤ q then ⌊q⌋ else ⌈q⌉

/-! ### Response Extractor

Embeds the inline extraction logic of `generate_questions_task` /
`evaluate_answers_task`:

    start = text.find(OPEN)
    end = text.rfind(CLOSE) + 1
    if start != -1 and end != -1:
        value = json.loads(text[start:end])

`parse` stands for `json.loads`; a `none` result of the whole function models
the caller treating the attempt as "no usable result" (the surrounding
`except Exception: continue`). -/

def extract_json {α : Type} (openC closeC : Char) (parse : String → Option α)
    (text : String) : Option α :=
  let l := text.toList
  let start := pyFind l openC
  let endI := pyRfind l closeC + 1
  if start ≠ -1 ∧ endI ≠ -1 then
    parse (String.mk (pySlice l start endI))
  else
    none

/-- Array-mode extraction (`[` ... `]`), used by the question generator. -/
def extract_array {α : Type} (parse : String → Option α) (text : String) : Option α :=
  extract_json '[' ']' parse text

/-- Object-mode extraction (`{` ... `}`), used by the answer evaluator. -/
def extract_object {α : Type} (parse : String → Option α) (text : String) : Option α :=
  extract_json '\x7b' '\x7d' parse text

/-! ### Question Generator (`crew_agents.generate_questions_task`) -/

/-- The fixed ordered list of model identifiers tried by both tasks. -/
def model_names : List String :=
  ["gemini-2.0-flash", "gemini-2.0-flash-lite", "gemini-pro-latest"]

/-- The fixed fallback question list of `generate_questions_task`
(`crew_agents.py` lines 52–57), templated with the company/role text. -/
def generate_questions_fallback (company role : String) : List Question :=
  [ ⟨"What are the key programming concepts for " ++ role ++ " at " ++ company ++ "?"⟩,
    ⟨"How would you design a scalable web app for " ++ company ++ "?"⟩,
    ⟨"Which databases suit " ++ company ++ " and why?"⟩,
    ⟨"Describe solving a large-scale performance issue at " ++ company ++ "."⟩ ]

/-- The model loop of `generate_questions_task`: for each model name, one
attempt (`attempt m = some arr` means the call succeeded and the extracted
text parsed as a JSON list `arr`); the first attempt yielding a list of
length ≥ 4 is returned; a failed attempt or a too-short list falls through
to the next model name. -/
def try_models_questions (attempt : String → Option (List Question)) :
    List String → Option (List Question)
  | [] => none
  | m :: rest =>
    match attempt m with
    | some arr => if 4 ≤ arr.length then some arr else try_models_questions attempt rest
    | none => try_models_questions attempt rest

/-- `generate_questions_task` (`crew_agents.py` lines 21–58): try each model
identifier in order; on total exhaustion return the fixed fallback list. -/
def generate_questions_task (attempt : String → Option (List Question))
    (company role : String) : List Question :=
  match try_models_questions attempt model_names with
  | some arr => arr
  | none => generate_questions_fallback company role

/-! ### Answer Evaluator heuristic fallbacks -/

/-- `sum(len(a.get("answer", "")) for a in answers)`. -/
def totalChars (answers : List AnswerRecord) : Nat :=
  (answers.map (fun a => a.answer.length)).sum

/-- `avg = total_chars / (len(answers) or 1)` as an exact rational. -/
def avgLen (answers : List AnswerRecord) : ℚ :=
  (totalChars answers : ℚ) / (if answers.length = 0 then 1 else (answers.length : ℚ))

/-- Route-level heuristic evaluator `fallback_evaluate`
(`app.py` lines 73–97): thresholds 400 / 250 / 150. -/
def fallback_evaluate (answers : List AnswerRecord) (company role : String) : Report :=
  let avg := avgLen answers
  let base : Int := if 400 < avg then 8 else if 250 < avg then 7 else if 150 < avg then 6 else 5
  { overall_score := base
    strengths := ["Clear problem solving", "Good technical foundation"]
    weaknesses := ["Add more " ++ company ++ "-specific examples", "Give more code-level details"]
    topic_scores :=
      { technical_knowledge := base
        problem_solving := base + 1
        communication := max (base - 1) 1
        code_quality := base
        system_design := base } }

/-- Task-level heuristic fallback inside `evaluate_answers_task`
(`crew_agents.py` lines 113–137): thresholds 400 / 250 / 120. -/
def evaluate_answers_task_fallback (answers : List AnswerRecord) (company : String) : Report :=
  let avg := avgLen answers
  let base : Int := if 400 < avg then 8 else if 250 < avg then 7 else if 120 < avg then 6 else 5
  { overall_score := base
    strengths := ["Clear explanations", "Good problem solving"]
    weaknesses := ["Could include more " ++ company ++ "-specific examples"]
    topic_scores :=
      { technical_knowledge := base
        problem_solving := base + 1
        communication := max (base - 1) 1
        code_quality := base
        system_design := base } }

/-- The model loop of `evaluate_answers_task`: the first model whose response
yields a parsed report object is accepted (no field validation). -/
def try_models_report (attempt : String → Option Report) :
    List String → Option Report
  | [] => none
  | m :: rest =>
    match attempt m with
    | some r => some r
    | none => try_models_report attempt rest

/-- `evaluate_answers_task` (`crew_agents.py` lines 70–137): try each model
identifier; on total exhaustion compute the task-level heuristic report. -/
def evaluate_answers_task (attempt : String → Option Report)
    (answers : List AnswerRecord) (company role : String) : Report :=
  match try_models_report attempt model_names with
  | some r => r
  | none => evaluate_answers_task_fallback answers company

/-- `Crew.kickoff`'s own heuristic fallback for `evaluate_answers`
(`crewai.py` lines 79–94): thresholds 400 / 250 / 150, written as a chained
conditional expression. -/
def kickoff_fallback_report (answers : List AnswerRecord) (company : String) : Report :=
  let avg := avgLen answers
  let base : Int := if 400 < avg then 8 else if 250 < avg then 7 else if 150 < avg then 6 else 5
  { overall_score := base
    strengths := ["Clear problem solving", "Good technical foundation"]
    weaknesses := ["Add more " ++ company ++ "-specific examples"]
    topic_scores :=
      { technical_knowledge := base
        problem_solving := base + 1
        communication := max (base - 1) 1
        code_quality := base
        system_design := base } }

/-! ### Session Flow Controller (`app.py` routes)

The Flask session is modelled as `Option SessionState`: `none` is a cleared /
fresh session (no keys set); `some st` is the state written by `/begin`.
Handlers return `Option (Response × Option SessionState)`: the response paired
with the session afterwards, and `none` models an uncaught exception
(an HTTP 500 server error). -/

/-- The session keys set by `/begin`. -/
structure SessionState where
  company : String
  role : String
  questions : List Question
  current_question : Nat
  answers : List AnswerRecord
deriving DecidableEq, Repr

/-- An HTTP response of the app: a redirect to a named endpoint, or one of the
rendered templates with its context values. -/
inductive Response where
  | redirect (endpoint : String)
  | renderIndex
  | renderInterview (company role questionText : String)
      (question_number total_questions : Nat) (progress : Int) (error : Option String)
  | renderReport (report : Report) (company role : String)
deriving DecidableEq, Repr

/-- Route-level fallback generator `fallback_generate_questions`
(`app.py` lines 64–70). -/
def fallback_generate_questions (company role : String) : List Question :=
  [ ⟨"What are the key programming concepts for a " ++ role ++ " at " ++ company ++ "?"⟩,
    ⟨"How would you design a scalable web application for " ++ company ++ "?"⟩,
    ⟨"What database technology would you pick for " ++ company ++ " and why?"⟩,
    ⟨"Explain an algorithmic optimization you\x27d apply to a " ++ company ++ "-scale system."⟩ ]

/-- `GET /` (`index`): clear the session, render the start form. -/
def index_get (_s : Option SessionState) : Option (Response × Option SessionState) :=
  some (Response.renderIndex, none)

/-- `GET /restart`: clear the session, redirect to the start form. -/
def restart_get (_s : Option SessionState) : Option (Response × Option SessionState) :=
  some (Response.redirect "index", none)

/-- `POST /begin` (`app.py` lines 107–138). `crewQuestions` abstracts the
outcome of `call_crew` plus the permissive unwrapping: `some qs` means the
crew call produced a list `qs` (possibly empty); `none` means the call raised
or returned a non-list, in which case `fallback_generate_questions` is used. -/
def begin_post (company_raw role_raw : String) (crewQuestions : Option (List Question))
    (s : Option SessionState) : Option (Response × Option SessionState) :=
  let company := pyStrip company_raw
  let role := pyStrip role_raw
  if company = "" ∨ role = "" then
    some (Response.redirect "index", s)
  else
    let questions :=
      match crewQuestions with
      | some qs => qs
      | none => fallback_generate_questions company role
    some (Response.redirect "interview",
      some { company := company, role := role, questions := questions,
             current_question := 0, answers := [] })

/-- `progress = int((idx / len(questions)) * 100)` (`app.py` lines 153, 177). -/
def progress_of (idx total : Nat) : Int :=
  pyInt (((idx : ℚ) / (total : ℚ)) * 100)

/-- `GET /interview` (`app.py` lines 141–147, 173–186). -/
def interview_get (s : Option SessionState) : Option (Response × Option SessionState) :=
  match s with
  | none => some (Response.redirect "index", none)
  | some st =>
    if st.questions = [] then
      some (Response.redirect "index", some st)
    else
      let idx := st.current_question
      if h : idx < st.questions.length then
        some (Response.renderInterview st.company st.role
          (st.questions.get ⟨idx, h⟩).question (idx + 1) st.questions.length
          (progress_of idx st.questions.length) none, some st)
      else
        some (Response.redirect "report", some st)

/-- `POST /interview` (`app.py` lines 141–171). An out-of-bounds
`questions[idx]` access raises `IndexError`, modelled as `none`. -/
def interview_post (s : Option SessionState) (answer_raw : String) :
    Option (Response × Option SessionState) :=
  match s with
  | none => some (Response.redirect "index", none)
  | some st =>
    if st.questions = [] then
      some (Response.redirect "index", some st)
    else
      let idx := st.current_question
      let answer_text := pyStrip answer_raw
      if answer_text = "" then
        if h : idx < st.questions.length then
          some (Response.renderInterview st.company st.role
            (st.questions.get ⟨idx, h⟩).question (idx + 1) st.questions.length
            (progress_of idx st.questions.length)
            (some "Please provide an answer before proceeding."), some st)
        else
          none
      else
        if h : idx < st.questions.length then
          let st' := { st with
            answers := st.answers ++ [⟨(st.questions.get ⟨idx, h⟩).question, answer_text⟩],
            current_question := idx + 1 }
          if st.questions.length ≤ idx + 1 then
            some (Response.redirect "report", some st')
          else
            some (Response.redirect "interview", some st')
        else
          none

/-- `GET /report` (`app.py` lines 189–217). `crewReport` abstracts the outcome
of `call_crew` plus the shape unwrapping: `none` means the crew call raised or
returned no recognizable report, in which case `fallback_evaluate` is used. -/
def report_get (crewReport : Option Report) (s : Option SessionState) :
    Option (Response × Option SessionState) :=
  match s with
  | none => some (Response.redirect "index", none)
  | some st =>
    if st.answers = [] then
      some (Response.redirect "index", some st)
    else
      let report_data :=
        match crewReport with
        | some r => r
        | none => fallback_evaluate st.answers st.company st.role
      some (Response.renderReport report_data st.company st.role, some st)

/-! ### Startup (`crew_agents.py` lines 7–11, `app.py` lines 18–22) -/

/-- The module-level API-key check of `crew_agents.py`: `raise ValueError` when
`os.getenv("GEMINI_API_KEY")` is `None` or falsy (the empty string). -/
def gemini_key_check (key : Option String) : Except String Unit :=
  match key with
  | none => Except.error "GEMINI_API_KEY missing"
  | some k => if k = "" then Except.error "GEMINI_API_KEY missing" else Except.ok ()

/-- Application state after module import: whether `interview_crew` is bound. -/
structure AppState where
  crew_available : Bool
deriving DecidableEq, Repr

/-- App startup (`app.py` lines 18–22): the import of `crew_agents` — which
runs `gemini_key_check` — is wrapped in `try/except`; on any exception a
warning is printed and `interview_crew` is set to `None`. Startup itself
never raises. -/
def app_startup (key : Option String) : Except String AppState :=
  match gemini_key_check key with
  | Except.error _ => Except.ok ⟨false⟩
  | Except.ok _ => Except.ok ⟨true⟩

/-! ### Route step relation and the session invariant -/

/-- One public-route request/response step on the session: any route, any form
input, any crew outcome. A handler that raises (returns `none`) leaves the
session unchanged (the exception occurs before any session mutation). -/
inductive RouteStep : Option SessionState → Option SessionState → Prop where
  | index : ∀ s r s', index_get s = some (r, s') → RouteStep s s'
  | restart : ∀ s r s', restart_get s = some (r, s') → RouteStep s s'
  | begin : ∀ s c ro cq r s', begin_post c ro cq s = some (r, s') → RouteStep s s'
  | interviewGet : ∀ s r s', interview_get s = some (r, s') → RouteStep s s'
  | interviewPostOk : ∀ s a r s', interview_post s a = some (r, s') → RouteStep s s'
  | interviewPostErr : ∀ s a, interview_post s a = none → RouteStep s s
  | reportGet : ∀ s cr r s', report_get cr s = some (r, s') → RouteStep s s'

/-- The session invariant: the number of stored answer records equals the
current question index, and the index never exceeds the question count. -/
def sessionInv : Option SessionState → Prop
  | none => True
  | some st =>
    st.current_question = st.answers.length ∧
    st.current_question ≤ st.questions.length

/-! ### Helper lemmas -/

theorem floor_ratio_eq_div (i N : ℕ) : ⌊((i:ℚ)/N)*100⌋ = ((100*i : ℕ) / (N:ℕ) : ℕ) := by
  rw [div_mul_eq_mul_div]
  rw [show ((i:ℚ)*100) = (((100*i : ℕ) : ℤ) : ℚ) by push_cast; ring]
  rw [Rat.floor_intCast_div_natCast]
  exact_mod_cast rfl

/-- The progress computation is floor division of `100 * idx` by `total`. -/
theorem progress_eq (i N : ℕ) : progress_of i N = ((100*i/N : ℕ) : Int) := by
  unfold progress_of pyInt
  rw [if_pos (by positivity), floor_ratio_eq_div]

/-- If no attempt parses to a list of length ≥ 4, the question-model loop
yields nothing. -/
theorem try_models_questions_none (attempt : String → Option (List Question))
    (hfail : ∀ m arr, attempt m = some arr → arr.length < 4) :
    ∀ ms : List String, try_models_questions attempt ms = none := by
  intro ms
  induction ms with
  | nil => rfl
  | cons m rest ih =>
    unfold try_models_questions
    cases hm : attempt m with
    | none => exact ih
    | some arr =>
      show (if 4 ≤ arr.length then some arr else try_models_questions attempt rest) = none
      rw [if_neg (Nat.not_le.mpr (hfail m arr hm))]; exact ih

/-- If every model attempt fails, the report-model loop yields nothing. -/
theorem try_models_report_none (attempt : String → Option Report)
    (hfail : ∀ m, attempt m = none) :
    ∀ ms : List String, try_models_report attempt ms = none := by
  intro ms
  induction ms with
  | nil => rfl
  | cons m rest ih => unfold try_models_report; rw [hfail m]; exact ih

/-- Average-length threshold comparisons reduce to integer comparisons on the
total character count when the answer list is non-empty. -/
theorem avg_gt_iff (answers : List AnswerRecord) (t : ℕ) (hne : answers ≠ []) :
    ((t:ℚ) < avgLen answers) ↔ t * answers.length < totalChars answers := by
  have hn : answers.length ≠ 0 := fun h => hne (List.length_eq_zero.mp h)
  have hpos : (0:ℚ) < (answers.length : ℚ) := by
    exact_mod_cast Nat.pos_of_ne_zero hn
  unfold avgLen
  rw [if_neg hn, lt_div_iff₀ hpos]
  exact_mod_cast Iff.rfl

/-! ### C1 -/

/-- C1: for any company/role text, when every model identifier fails to yield
a qualifying result (the attempt fails outright or parses to a list of fewer
than 4 elements), `generate_questions_task` returns the fixed fallback list of
exactly 4 questions templated with the company/role text — so its output has
length ≥ 4 — and the route-level fallback list also has exactly 4 questions. -/
theorem C1_generator_fallback (attempt : String → Option (List Question))
    (company role : String)
    (hfail : ∀ m arr, attempt m = some arr → arr.length < 4) :
    generate_questions_task attempt company role =
      generate_questions_fallback company role ∧
    (generate_questions_fallback company role).length = 4 ∧
    4 ≤ (generate_questions_task attempt company role).length ∧
    (∀ q ∈ generate_questions_fallback company role,
      company.toList <:+: q.question.toList) ∧
    (fallback_generate_questions company role).length = 4 := by
  have heq : generate_questions_task attempt company role =
      generate_questions_fallback company role := by
    unfold generate_questions_task
    rw [try_models_questions_none attempt hfail]
  refine ⟨heq, rfl, by rw [heq]; exact le_refl 4, ?_, rfl⟩
  intro q hq
  simp only [generate_questions_fallback, List.mem_cons, List.not_mem_nil, or_false] at hq
  rcases hq with h | h | h | h <;> subst h <;>
    simp only [String.toList, String.data_append] <;>
    exact List.infix_append _ _ _

/-! ### C2 -/

/-- C2: for any non-empty answer list, each heuristic-fallback report — the
route-level `fallback_evaluate`, the task-level fallback reached by
`evaluate_answers_task` when every model attempt fails, and `Crew.kickoff`'s
own fallback — satisfies `problem_solving = technical_knowledge + 1` and
`communication = max (technical_knowledge - 1) 1`. -/
theorem C2_fallback_topic_relations (answers : List AnswerRecord)
    (company role : String) (attempt : String → Option Report)
    (hne : answers ≠ []) (hfail : ∀ m, attempt m = none) :
    ((fallback_evaluate answers company role).topic_scores.problem_solving =
       (fallback_evaluate answers company role).topic_scores.technical_knowledge + 1 ∧
     (fallback_evaluate answers company role).topic_scores.communication =
       max ((fallback_evaluate answers company role).topic_scores.technical_knowledge - 1) 1) ∧
    ((evaluate_answers_task attempt answers company role).topic_scores.problem_solving =
       (evaluate_answers_task attempt answers company role).topic_scores.technical_knowledge + 1 ∧
     (evaluate_answers_task attempt answers company role).topic_scores.communication =
       max ((evaluate_answers_task attempt answers company role).topic_scores.technical_knowledge - 1) 1) ∧
    ((kickoff_fallback_report answers company).topic_scores.problem_solving =
       (kickoff_fallback_report answers company).topic_scores.technical_knowledge + 1 ∧
     (kickoff_fallback_report answers company).topic_scores.communication =
       max ((kickoff_fallback_report answers company).topic_scores.technical_knowledge - 1) 1) := by
  have htask : evaluate_answers_task attempt answers company role =
      evaluate_answers_task_fallback answers company := by
    unfold evaluate_answers_task
    rw [try_models_report_none attempt hfail]
  refine ⟨⟨rfl, rfl⟩, ?_, ⟨rfl, rfl⟩⟩
  rw [htask]
  exact ⟨rfl, rfl⟩

/-- C2 witness: the relations at a concrete one-answer input. -/
theorem C2_fallback_topic_relations_witness :
    (fallback_evaluate [⟨"Q1", "A short answer"⟩] "Acme" "Engineer").topic_scores.problem_solving =
      (fallback_evaluate [⟨"Q1", "A short answer"⟩] "Acme" "Engineer").topic_scores.technical_knowledge + 1 ∧
    (evaluate_answers_task (fun _ => none) [⟨"Q1", "A short answer"⟩] "Acme" "Engineer").topic_scores.communication =
      max ((evaluate_answers_task (fun _ => none) [⟨"Q1", "A short answer"⟩] "Acme" "Engineer").topic_scores.technical_knowledge - 1) 1 :=
  ⟨(C2_fallback_topic_relations [⟨"Q1", "A short answer"⟩] "Acme" "Engineer"
      (fun _ => none) (by simp) (fun _ => rfl)).1.1,
   (C2_fallback_topic_relations [⟨"Q1", "A short answer"⟩] "Acme" "Engineer"
      (fun _ => none) (by simp) (fun _ => rfl)).2.1.2⟩

/-- C1 witness: the generator with every model attempt failing, at concrete
company/role text. -/
theorem C1_generator_fallback_witness :
    generate_questions_task (fun _ => none) "Acme" "Engineer" =
      generate_questions_fallback "Acme" "Engineer" ∧
    4 ≤ (generate_questions_task (fun _ => none) "Acme" "Engineer").length :=
  ⟨(C1_generator_fallback (fun _ => none) "Acme" "Engineer" (fun _ _ h => by cases h)).1,
   (C1_generator_fallback (fun _ => none) "Acme" "Engineer" (fun _ _ h => by cases h)).2.2.1⟩

/-! ### C3 -/

/-- Zeta-reduced form of the extractor. -/
theorem extract_json_eq {α : Type} (openC closeC : Char) (parse : String → Option α)
    (text : String) :
    extract_json openC closeC parse text =
      if pyFind text.toList openC ≠ -1 ∧ pyRfind text.toList closeC + 1 ≠ -1 then
        parse (String.mk (pySlice text.toList (pyFind text.toList openC)
          (pyRfind text.toList closeC + 1)))
      else none := rfl

theorem pyFind_eq_neg_one (l : List Char) (c : Char) (hc : c ∉ l) : pyFind l c = -1 := by
  unfold pyFind
  rw [List.findIdx?_eq_none_iff.mpr (fun x hx => by
    simp only [decide_eq_false_iff_not]
    exact fun he => hc (he ▸ hx))]

theorem pyRfind_eq_neg_one (l : List Char) (c : Char) (hc : c ∉ l) : pyRfind l c = -1 := by
  unfold pyRfind
  rw [List.findIdx?_eq_none_iff.mpr (fun x hx => by
    simp only [decide_eq_false_iff_not]
    exact fun he => hc (he ▸ (List.mem_reverse.mp hx)))]

theorem pyFind_nonneg_of_mem (l : List Char) (c : Char) (hc : c ∈ l) :
    0 ≤ pyFind l c := by
  unfold pyFind
  cases hf : l.findIdx? (fun x => x = c) with
  | some i => exact Int.ofNat_nonneg i
  | none =>
    exfalso
    have := List.findIdx?_eq_none_iff.mp hf c hc
    simp at this

theorem pyRfind_nonneg_of_mem (l : List Char) (c : Char) (hc : c ∈ l) :
    0 ≤ pyRfind l c := by
  unfold pyRfind
  cases hf : l.reverse.findIdx? (fun x => x = c) with
  | some i =>
    have hi : i < l.reverse.length := (List.findIdx?_eq_some_iff_findIdx_eq.mp hf).1
    simp only [List.length_reverse] at hi
    show (0:Int) ≤ (l.length : Int) - 1 - (i : Int)
    omega
  | none =>
    exfalso
    have := List.findIdx?_eq_none_iff.mp hf c (List.mem_reverse.mpr hc)
    simp at this

/-- C3: for every input text and any strict JSON parse function (one that
fails on the empty string, as `json.loads` does), the extractor (i) parses the
substring from the first opening bracket up to and including the last closing
bracket whenever both brackets occur, (ii) signals failure when the opening
bracket is absent, (iii) signals failure when the closing bracket is absent,
(iv) signals failure whenever parsing fails — never propagating an exception,
since the result is an `Option` — and (v) in particular array-mode extraction
of "sorry, no questions" is a failure. -/
theorem C3_extractor_failure {α : Type} (openC closeC : Char)
    (parse : String → Option α) (hempty : parse "" = none) :
    (∀ text : String, openC ∈ text.toList → closeC ∈ text.toList →
      extract_json openC closeC parse text =
        parse (String.mk (pySlice text.toList (pyFind text.toList openC)
          (pyRfind text.toList closeC + 1)))) ∧
    (∀ text : String, openC ∉ text.toList →
      extract_json openC closeC parse text = none) ∧
    (∀ text : String, closeC ∉ text.toList →
      extract_json openC closeC parse text = none) ∧
    (∀ text : String, (∀ s, parse s = none) →
      extract_json openC closeC parse text = none) ∧
    extract_array parse "sorry, no questions" = none := by
  refine ⟨?_, ?_, ?_, ?_, ?_⟩
  · intro text hopen hclose
    have h1 : pyFind text.toList openC ≠ -1 := by
      have := pyFind_nonneg_of_mem text.toList openC hopen
      omega
    have h2 : pyRfind text.toList closeC + 1 ≠ -1 := by
      have := pyRfind_nonneg_of_mem text.toList closeC hclose
      omega
    rw [extract_json_eq, if_pos ⟨h1, h2⟩]
  · intro text hopen
    rw [extract_json_eq,
      if_neg (fun hcontra => hcontra.1 (pyFind_eq_neg_one text.toList openC hopen))]
  · intro text hclose
    by_cases hopen : openC ∈ text.toList
    · have hr : pyRfind text.toList closeC = -1 := pyRfind_eq_neg_one text.toList closeC hclose
      have hs : 0 ≤ pyFind text.toList openC := pyFind_nonneg_of_mem text.toList openC hopen
      rw [extract_json_eq, if_pos ⟨by omega, by omega⟩]
      have hslice : pySlice text.toList (pyFind text.toList openC)
          (pyRfind text.toList closeC + 1) = [] := by
        unfold pySlice
        rw [hr, show ((-1:Int) + 1 - pyFind text.toList openC).toNat = 0 by omega]
        exact List.take_zero _
      rw [hslice]
      exact hempty
    · rw [extract_json_eq,
        if_neg (fun hcontra => hcontra.1 (pyFind_eq_neg_one text.toList openC hopen))]
  · intro text hall
    rw [extract_json_eq]
    split
    · exact hall _
    · rfl
  · have hopen : '[' ∉ ("sorry, no questions".toList) := by decide
    show extract_json '[' ']' parse "sorry, no questions" = none
    rw [extract_json_eq,
      if_neg (fun hcontra => hcontra.1 (pyFind_eq_neg_one _ '[' hopen))]

/-- C3 witness: a concrete strict parse function failing on the empty
string. -/
theorem C3_extractor_failure_witness :
    extract_array (fun _ => (none : Option Unit)) "sorry, no questions" = none :=
  (C3_extractor_failure '[' ']' (fun _ => (none : Option Unit)) rfl).2.2.2.2

/-! ### C6 -/

/-- C6: for any non-empty answer list, the heuristic base score follows the
fixed average-length thresholds — average > 400 gives 8, > 250 gives 7,
> 150 (route-level `fallback_evaluate`) or > 120 (task-level fallback)
gives 6, else 5 — and `overall_score` equals this base. Stated via the
equivalent integer comparisons `threshold * count < total`. -/
theorem C6_fallback_thresholds (answers : List AnswerRecord)
    (company role : String) (hne : answers ≠ []) :
    ((fallback_evaluate answers company role).overall_score =
      if 400 * answers.length < totalChars answers then 8
      else if 250 * answers.length < totalChars answers then 7
      else if 150 * answers.length < totalChars answers then 6 else 5) ∧
    ((evaluate_answers_task_fallback answers company).overall_score =
      if 400 * answers.length < totalChars answers then 8
      else if 250 * answers.length < totalChars answers then 7
      else if 120 * answers.length < totalChars answers then 6 else 5) ∧
    ((kickoff_fallback_report answers company).overall_score =
      if 400 * answers.length < totalChars answers then 8
      else if 250 * answers.length < totalChars answers then 7
      else if 150 * answers.length < totalChars answers then 6 else 5) := by
  have h400 := avg_gt_iff answers 400 hne
  have h250 := avg_gt_iff answers 250 hne
  have h150 := avg_gt_iff answers 150 hne
  have h120 := avg_gt_iff answers 120 hne
  norm_num at h400 h250 h150 h120
  refine ⟨?_, ?_, ?_⟩ <;>
    simp only [fallback_evaluate, evaluate_answers_task_fallback,
      kickoff_fallback_report, h400, h250, h150, h120]

/-- C6 witness: a single 200-character answer has average length 200, which
is above the route-level third tier (150), so the base and overall score
are 6. -/
theorem C6_fallback_thresholds_witness :
    (fallback_evaluate [⟨"Q1", String.mk (List.replicate 200 'x')⟩] "Acme" "Engineer").overall_score = 6 := by
  have h := (C6_fallback_thresholds [⟨"Q1", String.mk (List.replicate 200 'x')⟩]
    "Acme" "Engineer" (by simp)).1
  have hlen : totalChars [⟨"Q1", String.mk (List.replicate 200 'x')⟩] = 200 := by
    simp [totalChars, String.length_mk, List.length_replicate]
    rfl
  rw [hlen] at h
  norm_num at h
  exact h

/-! ### C10 -/

/-- C10: each heuristic fallback evaluator is total on the empty answer list:
the division is guarded (`len(answers) or 1`), the average evaluates to 0, and
all three implementations yield the minimum base score 5. -/
theorem C10_fallback_empty (company role : String) :
    avgLen [] = 0 ∧
    (fallback_evaluate [] company role).overall_score = 5 ∧
    (evaluate_answers_task_fallback [] company).overall_score = 5 ∧
    (kickoff_fallback_report [] company).overall_score = 5 := by
  have havg : avgLen [] = 0 := by
    unfold avgLen totalChars
    norm_num
  refine ⟨havg, ?_, ?_, ?_⟩ <;>
    simp [fallback_evaluate, evaluate_answers_task_fallback, kickoff_fallback_report, havg] <;>
    norm_num

/-! ### Handler equation lemmas (zeta/iota-reduced forms) -/

theorem begin_post_eq (c r : String) (cq : Option (List Question)) (s : Option SessionState) :
    begin_post c r cq s =
      if pyStrip c = "" ∨ pyStrip r = "" then some (Response.redirect "index", s)
      else some (Response.redirect "interview",
        some { company := pyStrip c, role := pyStrip r,
               questions := match cq with
                 | some qs => qs
                 | none => fallback_generate_questions (pyStrip c) (pyStrip r),
               current_question := 0, answers := [] }) := rfl

theorem interview_get_some_eq (st : SessionState) :
    interview_get (some st) =
      (if st.questions = [] then some (Response.redirect "index", some st)
       else if h : st.current_question < st.questions.length then
         some (Response.renderInterview st.company st.role
           (st.questions.get ⟨st.current_question, h⟩).question (st.current_question + 1)
           st.questions.length (progress_of st.current_question st.questions.length) none,
           some st)
       else some (Response.redirect "report", some st)) := rfl

theorem interview_post_some_eq (st : SessionState) (a : String) :
    interview_post (some st) a =
      (if st.questions = [] then some (Response.redirect "index", some st)
       else if pyStrip a = "" then
         (if h : st.current_question < st.questions.length then
            some (Response.renderInterview st.company st.role
              (st.questions.get ⟨st.current_question, h⟩).question
              (st.current_question + 1) st.questions.length
              (progress_of st.current_question st.questions.length)
              (some "Please provide an answer before proceeding."), some st)
          else none)
       else
         (if h : st.current_question < st.questions.length then
            (if st.questions.length ≤ st.current_question + 1 then
               some (Response.redirect "report",
                 some { st with
                   answers := st.answers ++
                     [⟨(st.questions.get ⟨st.current_question, h⟩).question, pyStrip a⟩],
                   current_question := st.current_question + 1 })
             else
               some (Response.redirect "interview",
                 some { st with
                   answers := st.answers ++
                     [⟨(st.questions.get ⟨st.current_question, h⟩).question, pyStrip a⟩],
                   current_question := st.current_question + 1 }))
          else none)) := rfl

theorem report_get_some_eq (cr : Option Report) (st : SessionState) :
    report_get cr (some st) =
      if st.answers = [] then some (Response.redirect "index", some st)
      else some (Response.renderReport
        (match cr with
         | some rep => rep
         | none => fallback_evaluate st.answers st.company st.role) st.company st.role,
        some st) := rfl

/-! ### C4 -/

/-- A complete-state session: one question, index 1, one answer. -/
def c4_complete_state : SessionState :=
  { company := "Acme", role := "Engineer", questions := [⟨"Q1"⟩],
    current_question := 1, answers := [⟨"Q1", "An answer"⟩] }

/-- C4 counterexample: with session index 1 on a one-question list (out of
ANSWERING bounds), a POST to the interview view hits `questions[idx]` and
raises (`none` = server error), and a GET redirects to the report view, not
to the start view — refuting both "never a server error" and "redirect to
START" for interview requests with an out-of-bounds index. -/
theorem C4_counterexample :
    interview_post (some c4_complete_state) "hello" = none ∧
    interview_get (some c4_complete_state) =
      some (Response.redirect "report", some c4_complete_state) ∧
    Response.redirect "report" ≠ Response.redirect "index" := by
  refine ⟨rfl, rfl, by decide⟩

/-- C4 (amended): with an out-of-bounds session index, a GET of the interview
view redirects to the report view (not directly to START) and a POST raises a
server error; the report view itself does redirect to START when the session
is cleared or no answer record exists. -/
theorem C4_amended (st : SessionState) (hq : st.questions ≠ [])
    (hoob : st.questions.length ≤ st.current_question) :
    interview_get (some st) = some (Response.redirect "report", some st) ∧
    (∀ a, interview_post (some st) a = none) ∧
    (∀ cr, report_get cr none = some (Response.redirect "index", none)) ∧
    (∀ cr st2, st2.answers = [] →
      report_get cr (some st2) = some (Response.redirect "index", some st2)) := by
  have hnl : ¬ st.current_question < st.questions.length := by omega
  refine ⟨?_, ?_, ?_, ?_⟩
  · rw [interview_get_some_eq, if_neg hq, dif_neg hnl]
  · intro a
    rw [interview_post_some_eq, if_neg hq]
    by_cases he : pyStrip a = ""
    · rw [if_pos he, dif_neg hnl]
    · rw [if_neg he, dif_neg hnl]
  · intro cr; rfl
  · intro cr st2 h2
    rw [report_get_some_eq, if_pos h2]

/-- A freshly-begun session with no answers yet. -/
def c4_fresh_state : SessionState :=
  { company := "A", role := "R", questions := [⟨"Q"⟩],
    current_question := 0, answers := [] }

/-- C4 witness: the amended behaviour at the concrete complete-state
session. -/
theorem C4_amended_witness :
    interview_get (some c4_complete_state) =
      some (Response.redirect "report", some c4_complete_state) ∧
    interview_post (some c4_complete_state) "" = none ∧
    report_get none (some c4_fresh_state) =
      some (Response.redirect "index", some c4_fresh_state) :=
  ⟨(C4_amended c4_complete_state (by decide) (by decide)).1,
   (C4_amended c4_complete_state (by decide) (by decide)).2.1 "",
   (C4_amended c4_complete_state (by decide) (by decide)).2.2.2 none _ rfl⟩

/-! ### C5 -/

/-- The session state produced by a successful /begin for Acme/Engineer when
the crew is unavailable. -/
def begin_acme_state : SessionState :=
  { company := "Acme", role := "Engineer",
    questions := fallback_generate_questions "Acme" "Engineer",
    current_question := 0, answers := [] }

/-- C5 counterexample: with no API key in the environment, the agents-module
key check raises, but application startup completes normally (`Except.ok`,
with the crew marked unavailable) and /begin still serves a successful
response via the local fallback generator — refuting "the process raises
during startup and does not go on to serve traffic". -/
theorem C5_counterexample :
    gemini_key_check none = Except.error "GEMINI_API_KEY missing" ∧
    app_startup none = Except.ok ⟨false⟩ ∧
    begin_post "Acme" "Engineer" none none =
      some (Response.redirect "interview", some begin_acme_state) :=
  ⟨rfl, rfl, rfl⟩

/-- C5 (amended): if the API key is absent or empty, the agents-module import
raises, but `app.py` catches the import failure, completes startup with
`interview_crew = None`, and serves traffic: any /begin with non-empty
company/role succeeds using the route-level fallback generator. -/
theorem C5_amended (key : Option String) (hkey : key = none ∨ key = some "") :
    gemini_key_check key = Except.error "GEMINI_API_KEY missing" ∧
    app_startup key = Except.ok ⟨false⟩ ∧
    ∀ c r s, pyStrip c ≠ "" → pyStrip r ≠ "" →
      begin_post c r none s =
        some (Response.redirect "interview",
          some { company := pyStrip c, role := pyStrip r,
                 questions := fallback_generate_questions (pyStrip c) (pyStrip r),
                 current_question := 0, answers := [] }) := by
  have hkc : gemini_key_check key = Except.error "GEMINI_API_KEY missing" := by
    rcases hkey with rfl | rfl <;> rfl
  refine ⟨hkc, ?_, ?_⟩
  · unfold app_startup
    rw [hkc]
  · intro c r s hc hr
    rw [begin_post_eq, if_neg (by push_neg; exact ⟨hc, hr⟩)]

/-- C5 witness: the amended behaviour at the concrete missing-key
environment. -/
theorem C5_amended_witness :
    gemini_key_check none = Except.error "GEMINI_API_KEY missing" ∧
    app_startup none = Except.ok ⟨false⟩ ∧
    begin_post "Acme" "Engineer" none none =
      some (Response.redirect "interview", some begin_acme_state) :=
  ⟨(C5_amended none (Or.inl rfl)).1, (C5_amended none (Or.inl rfl)).2.1,
   (C5_amended none (Or.inl rfl)).2.2 "Acme" "Engineer" none (by decide) (by decide)⟩

/-! ### C7 -/

/-- A mid-interview session: three questions, index 2, two answers. -/
def c7_mid_state : SessionState :=
  { company := "Acme", role := "Engineer",
    questions := [⟨"Q1"⟩, ⟨"Q2"⟩, ⟨"Q3"⟩],
    current_question := 2, answers := [⟨"Q1", "a"⟩, ⟨"Q2", "b"⟩] }

/-- C7 counterexample: at index 2 of 3 questions, the rendered progress is
`int((2/3)*100) = 66`, while nearest-integer rounding of the exact ratio
gives `round(100*2/3) = 67` — the code truncates instead of rounding. -/
theorem C7_counterexample :
    interview_get (some c7_mid_state) =
      some (Response.renderInterview "Acme" "Engineer" "Q3" 3 3 66 none,
        some c7_mid_state) ∧
    round ((100 * 2 : ℚ) / 3) = 67 ∧ (66 : Int) ≠ 67 := by
  refine ⟨?_, by norm_num [round_eq], by decide⟩
  have hp : progress_of 2 3 = (66 : Int) := by rw [progress_eq]; rfl
  rw [interview_get_some_eq,
    if_neg (by decide : ¬(c7_mid_state.questions = [])),
    dif_pos (by decide : c7_mid_state.current_question < c7_mid_state.questions.length),
    show progress_of c7_mid_state.current_question c7_mid_state.questions.length =
      progress_of 2 3 from rfl, hp]
  rfl

/-- C7 (amended): a GET of the interview view in state ANSWERING(i) renders
question i with progress equal to the integer TRUNCATION of `100 * i / N`
(floor division), not its nearest-integer rounding. -/
theorem C7_amended (st : SessionState)
    (h : st.current_question < st.questions.length) :
    interview_get (some st) =
      some (Response.renderInterview st.company st.role
        (st.questions.get ⟨st.current_question, h⟩).question
        (st.current_question + 1) st.questions.length
        ((100 * st.current_question / st.questions.length : ℕ) : Int) none,
        some st) := by
  have hq : ¬(st.questions = []) := by
    intro hh
    rw [hh] at h
    simp at h
  rw [interview_get_some_eq, if_neg hq, dif_pos h, progress_eq]

/-- C7 witness: the amended progress value at the concrete mid-interview
session. -/
theorem C7_amended_witness :
    interview_get (some c7_mid_state) =
      some (Response.renderInterview "Acme" "Engineer" "Q3" 3 3 66 none,
        some c7_mid_state) := by
  have h := C7_amended c7_mid_state (by decide)
  exact h

/-! ### C8 -/

/-- C8: in state ANSWERING(i), posting an answer that strips to the empty
string leaves the session unchanged (same index, no record appended) and
re-renders question i with the validation message. -/
theorem C8_empty_answer (st : SessionState) (a : String)
    (h : st.current_question < st.questions.length) (hempty : pyStrip a = "") :
    interview_post (some st) a =
      some (Response.renderInterview st.company st.role
        (st.questions.get ⟨st.current_question, h⟩).question
        (st.current_question + 1) st.questions.length
        (progress_of st.current_question st.questions.length)
        (some "Please provide an answer before proceeding."), some st) := by
  have hq : ¬(st.questions = []) := by
    intro hh
    rw [hh] at h
    simp at h
  rw [interview_post_some_eq, if_neg hq, if_pos hempty, dif_pos h]

/-- C8 witness: a whitespace-only answer at the concrete mid-interview
session re-renders question 3 with the validation message and the session
unchanged. -/
theorem C8_empty_answer_witness :
    interview_post (some c7_mid_state) " " =
      some (Response.renderInterview "Acme" "Engineer" "Q3" 3 3 66
        (some "Please provide an answer before proceeding."), some c7_mid_state) := by
  have h := C8_empty_answer c7_mid_state " " (by decide) (by decide)
  rw [h,
    show progress_of c7_mid_state.current_question c7_mid_state.questions.length =
      progress_of 2 3 from rfl, progress_eq]
  rfl

/-! ### C9 -/

/-- Any single public-route step preserves the answers-equals-index
invariant. -/
theorem routeStep_preserves_inv (s s' : Option SessionState)
    (hinv : sessionInv s) (hstep : RouteStep s s') : sessionInv s' := by
  cases hstep with
  | index r s' h =>
    unfold index_get at h
    simp only [Option.some.injEq, Prod.mk.injEq] at h
    rw [← h.2]
    trivial
  | restart r s' h =>
    unfold restart_get at h
    simp only [Option.some.injEq, Prod.mk.injEq] at h
    rw [← h.2]
    trivial
  | begin c ro cq r s' h =>
    rw [begin_post_eq] at h
    split at h
    · simp only [Option.some.injEq, Prod.mk.injEq] at h
      rw [← h.2]
      exact hinv
    · simp only [Option.some.injEq, Prod.mk.injEq] at h
      rw [← h.2]
      simp [sessionInv]
  | interviewGet r s' h =>
    cases s with
    | none =>
      simp only [interview_get, Option.some.injEq, Prod.mk.injEq] at h
      rw [← h.2]
      trivial
    | some st =>
      rw [interview_get_some_eq] at h
      split at h
      · simp only [Option.some.injEq, Prod.mk.injEq] at h
        rw [← h.2]
        exact hinv
      · split at h <;>
          (simp only [Option.some.injEq, Prod.mk.injEq] at h; rw [← h.2]; exact hinv)
  | interviewPostOk a r s' h =>
    cases s with
    | none =>
      simp only [interview_post, Option.some.injEq, Prod.mk.injEq] at h
      rw [← h.2]
      trivial
    | some st =>
      rw [interview_post_some_eq] at h
      simp only [sessionInv] at hinv
      split at h
      · simp only [Option.some.injEq, Prod.mk.injEq] at h
        rw [← h.2]
        exact hinv
      · split at h
        · split at h
          · simp only [Option.some.injEq, Prod.mk.injEq] at h
            rw [← h.2]
            exact hinv
          · exact absurd h (by simp)
        · split at h
          · split at h <;>
              (simp only [Option.some.injEq, Prod.mk.injEq] at h;
               rw [← h.2];
               simp only [sessionInv, List.length_append, List.length_cons, List.length_nil];
               omega)
          · exact absurd h (by simp)
  | interviewPostErr a h => exact hinv
  | reportGet cr r s' h =>
    cases s with
    | none =>
      simp only [report_get, Option.some.injEq, Prod.mk.injEq] at h
      rw [← h.2]
      trivial
    | some st =>
      rw [report_get_some_eq] at h
      split at h <;>
        (simp only [Option.some.injEq, Prod.mk.injEq] at h; rw [← h.2]; exact hinv)

/-- C9: in every session state reachable through the public routes from a
successful /begin, the number of stored answer records equals
`current_question`: /begin establishes the invariant (index 0, no answers), a
successful answer submission appends exactly one record while incrementing the
index, and every other route either leaves the session unchanged, clears it,
or re-establishes the invariant. -/
theorem C9_reachable_inv (c r : String) (cq : Option (List Question))
    (s0 : Option SessionState) (resp : Response) (s1 s' : Option SessionState)
    (hc : pyStrip c ≠ "") (hr : pyStrip r ≠ "")
    (hbegin : begin_post c r cq s0 = some (resp, s1))
    (hreach : Relation.ReflTransGen RouteStep s1 s') :
    sessionInv s' := by
  have h1 : sessionInv s1 := by
    rw [begin_post_eq, if_neg (by push_neg; exact ⟨hc, hr⟩)] at hbegin
    simp only [Option.some.injEq, Prod.mk.injEq] at hbegin
    rw [← hbegin.2]
    simp [sessionInv]
  induction hreach with
  | refl => exact h1
  | tail hsteps hstep ih => exact routeStep_preserves_inv _ _ ih hstep

/-- C9 witness: the invariant holds at the state created by a concrete
successful /begin. -/
theorem C9_reachable_inv_witness : sessionInv (some begin_acme_state) :=
  C9_reachable_inv "Acme" "Engineer" none none (Response.redirect "interview")
    (some begin_acme_state) (some begin_acme_state) (by decide) (by decide) rfl
    Relation.ReflTransGen.refl
